/-
Verification of the weather_data_api query engine (src/step04_api/api.py)
against its natural-language specification.

Shallow embedding conventions:
- Python floats are modelled as rationals (`Rat`).  At every concrete input
  used below, IEEE binary64 evaluation of the embedded arithmetic agrees
  exactly with the rational value, so the model is faithful at those points.
- `requests.Response` is modelled as `Response β`: the `ok` flag plus the
  parsed JSON body `β` (the result of `.json()`).  The JSON payloads are
  modelled as records of `Option` fields, one per access path the source
  reads; `none` means the key is absent, so the corresponding dictionary
  access raises `KeyError` in Python.
- Fallible Python code (a raised exception, or a function falling off the
  end and implicitly returning `None`) is modelled with `Option`: `none`
  stands for "no well-formed return value reached the caller".
- The network is modelled by passing the request operation as a function of
  the attempt number, abstracting the nondeterministic sequence of
  responses an endpoint would produce.
-/
import Mathlib

/-- Embedding of `requests.Response` as consumed by the source: the protocol
`ok` flag and the parsed JSON `body` (what `.json()` returns). -/
structure Response (β : Type) where
  ok : Bool
  body : β
deriving DecidableEq, Repr

/-- Loop body of `retry_request`'s `for i in range(retry_counter)`.
`total` is the (clamped) `retry_counter`; `i` is the loop variable and
`fuel = total - i` counts the remaining iterations, so the recursion is
structural.  Falling out of the loop (fuel exhausted) is Python's implicit
`return None`, modelled as `none`.  The `sleep(sleep_duration)` between
non-final failed attempts has no observable effect on the returned value
and is not modelled. -/
def retry_go {β : Type} (request_func : Nat → Response β) (total : Nat) :
    Nat → Nat → Option (Response β × Nat)
  | _, 0 => none
  | i, fuel + 1 =>
    let response := request_func i
    if response.ok then some (response, i)
    else if i < total - 1 then retry_go request_func total (i + 1) fuel
    else some (response, i)

/-- Embedding of `retry_request` (api.py:126-146).  `retry_counter` below 1
is clamped to 0, after which the `for` loop over `range(retry_counter)`
runs; `request_func i` is the response received on attempt `i`. -/
def retry_request {β : Type} (retry_counter : Int)
    (request_func : Nat → Response β) : Option (Response β × Nat) :=
  let n : Nat := if retry_counter < 1 then 0 else retry_counter.toNat
  retry_go request_func n 0 n

/-- Embedding of `convert_fahrenheit_to_celsius` (api.py:59-63):
`5/9 * (fahrenheit - 32)` over rationals. -/
def convert_fahrenheit_to_celsius (fahrenheit : Rat) : Rat :=
  5 / 9 * (fahrenheit - 32)

/-- Embedding of the pydantic model `CurrentWeather` (api.py:19-27) with its
declared defaults.  Pydantic only validates fields that are explicitly
passed to the constructor (defaults are not validated, and plain attribute
assignment after construction is not validated either); the field
constraints are therefore kept separate from the structure, see
`temperature_celsius_in_declared_range`. -/
structure CurrentWeather where
  valid_response : Bool
  temperature_celsius : Rat := -9999
  radar_station : String := ""
  coordinates_city : String := ""
  coordinates_state : String := ""
  error_message : String := ""
deriving DecidableEq, Repr

/-- The bound `Field(ge=-150, le=150)` declared on
`CurrentWeather.temperature_celsius` (api.py:23). -/
def temperature_celsius_in_declared_range (t : Rat) : Prop :=
  -150 ≤ t ∧ t ≤ 150

instance (t : Rat) : Decidable (temperature_celsius_in_declared_range t) := by
  unfold temperature_celsius_in_declared_range
  infer_instance

/-- The station-metadata payload, as a record of the JSON paths the source
reads from `station_response.json()`:
`['properties']['forecast']`, `['type']`,
`['properties']['relativeLocation']['properties']['city']` /
`['state']`, and `['properties']['radarStation']`.
A `none` field models the key being absent from the JSON. -/
structure StationPayload where
  forecast : Option String
  error_type : Option String
  city : Option String
  state : Option String
  radarStation : Option String
deriving DecidableEq, Repr

/-- The forecast payload: the source reads only
`['properties']['periods'][0]['temperature']` from it. -/
structure ForecastPayload where
  temperature : Option Rat
deriving DecidableEq, Repr

/-- `forecast_url_missing_message` from `provide_response_error_messages`
(api.py:291-293). -/
def forecast_url_missing_message : String :=
  "Valid response from current weather API, but forecast URL not in expected place in response."

/-- `invalid_input_coordinates_message` (api.py:294-298). -/
def invalid_input_coordinates_message : String :=
  "Invalid input coordinates.  The first coordinate should be latitude; the second should be longitude.  Ensure that the coordinates are within the United States."

/-- `invalid_weather_api_response_message` (api.py:299-300). -/
def invalid_weather_api_response_message : String :=
  "Invalid response from current weather API."

/-- `temperature_missing_message` (api.py:301-303). -/
def temperature_missing_message : String :=
  "Valid response from current weather API, but temperature not in expected place in response."

/-- `location_missing_message` (api.py:304-306). -/
def location_missing_message : String :=
  "Valid response from current weather API, but location information is incomplete."

/-- Embedding of `provide_response_error_messages` (api.py:283-311). -/
def provide_response_error_messages :
    String × String × String × String × String :=
  (forecast_url_missing_message, invalid_input_coordinates_message,
   invalid_weather_api_response_message, temperature_missing_message,
   location_missing_message)

/-- Python's substring test `pat in s`, via `str.split`: the pattern occurs
in `s` iff splitting on it yields more than one piece. -/
def str_contains (s pat : String) : Bool :=
  (s.splitOn pat).length != 1

/-- Embedding of `request_current_weather` (api.py:314-426).

`station_op` abstracts `request_station_information` and `forecast_op`
abstracts `requests.get(forecast_url)`, each as a function of the attempt
number inside `retry_request` (retry_n = 3, the source's fixed policy; the
4-second delay is unobservable in the returned value).

Control flow mirrors the source exactly:
- station response ok, forecast URL absent  -> forecast_url_missing;
- station response not ok -> read payload `['type']` (UNGUARDED in the
  source, so an absent key raises `KeyError`, modelled as `none`), then
  classify by the case-insensitive substring test `'invalidpoint' in
  error_type.lower()`;
- forecast response ok, temperature absent -> temperature_missing
  (valid_response stays true);
- temperature present but city/state/radarStation extraction fails ->
  location_missing with the converted temperature;
- all present -> full success;
- forecast response not ok -> valid_response=false with the default
  (empty) error message. -/
def request_current_weather (station_op : Nat → Response StationPayload)
    (forecast_op : Nat → Response ForecastPayload) : Option CurrentWeather :=
  let retry_n : Int := 3
  match retry_request retry_n station_op with
  | none => none
  | some (station_response, _) =>
    if station_response.ok then
      match station_response.body.forecast with
      | none =>
        some { valid_response := false,
               error_message := forecast_url_missing_message }
      | some _forecast_url =>
        match retry_request retry_n forecast_op with
        | none => none
        | some (forecast_response, _) =>
          if forecast_response.ok then
            match forecast_response.body.temperature with
            | none =>
              some { valid_response := true,
                     error_message := temperature_missing_message }
            | some current_temperature =>
              match station_response.body.city, station_response.body.state,
                    station_response.body.radarStation with
              | some city, some state, some radar_station =>
                some { valid_response := true,
                       temperature_celsius :=
                         convert_fahrenheit_to_celsius current_temperature,
                       radar_station := radar_station,
                       coordinates_city := city,
                       coordinates_state := state }
              | _, _, _ =>
                some { valid_response := true,
                       temperature_celsius :=
                         convert_fahrenheit_to_celsius current_temperature,
                       error_message := location_missing_message }
          else
            some { valid_response := false }
    else
      match station_response.body.error_type with
      | none => none
      | some error_type =>
        if str_contains error_type.toLower "invalidpoint" then
          some { valid_response := false,
                 error_message := invalid_input_coordinates_message }
        else
          some { valid_response := false,
                 error_message := invalid_weather_api_response_message }

/-- The comparison `distance < min_distance` of `identify_closest_coordinates`,
where `min_distance` starts at `float('inf')` (modelled as `none`): every
finite distance is below the infinite sentinel. -/
def lt_min_distance (distance : Rat) : Option Rat → Bool
  | none => true
  | some min_distance => decide (distance < min_distance)

/-- The `for i, e in enumerate(coordinates_srs)` loop of
`identify_closest_coordinates`, over the enumerated list of distances, with
the accumulator `(min_distance_idx, min_distance)` (initially the sentinels
`(-1, float('inf'))`).  The update is guarded by strict `<`, so the first
index attaining the minimum is kept. -/
def closest_loop : List (Nat × Rat) → Int × Option Rat → Int × Option Rat
  | [], acc => acc
  | (i, distance) :: rest, (min_distance_idx, min_distance) =>
    if lt_min_distance distance min_distance then closest_loop rest ((i : Int), some distance)
    else closest_loop rest (min_distance_idx, min_distance)

/-- Embedding of `identify_closest_coordinates` (api.py:66-123).  The
dataframe of stations is the list of their `(lat, lon)` pairs;
`gd_distance` abstracts the external geodesic-distance library call
`gd.distance(input_coordinates, (e['lat'], e['lon'])).kilometers`
(geopy computes a finite nonnegative float for any coordinate pair, so the
distances are modelled as rationals).  The input pre-checks of the source
(`assert len(coordinates_df) > 0` and the column/dtype asserts) reject the
empty dataframe; all claims about this function are restricted to
non-empty inputs, where the asserts pass and the scan below runs. -/
def identify_closest_coordinates (gd_distance : Rat × Rat → Rat × Rat → Rat)
    (input_coordinates : Rat × Rat) (coordinates_df : List (Rat × Rat)) :
    Int × Option Rat :=
  closest_loop ((coordinates_df.map (gd_distance input_coordinates)).enum)
    (-1, none)

/-- A timestamp at the granularity the archived series uses (whole hours);
only the calendar fields and the sort order matter to the embedded code. -/
structure DTime where
  year : Nat
  month : Nat
  day : Nat
  hour : Nat
deriving DecidableEq, Repr

/-- Sort key realizing the chronological order of `DTime` values. -/
def DTime.key (t : DTime) : Nat :=
  ((t.year * 13 + t.month) * 32 + t.day) * 24 + t.hour

/-- One dataframe row as `filter_df_by_id_and_date` consumes it: the
`date_colname` timestamp and the `id_colname` station id.  (The source is
schema-generic over column names; the fixed two-column schema of its
docstring example is embedded, and `output_colnames` selection is the
identity on these rows.) -/
structure Row where
  timestamp : DTime
  id : Int
deriving DecidableEq, Repr

/-- Insertion step for sorting rows by timestamp. -/
def insert_row (r : Row) : List Row → List Row
  | [] => [r]
  | x :: xs =>
    if r.timestamp.key ≤ x.timestamp.key then r :: x :: xs
    else x :: insert_row r xs

/-- `df.sort(date_colname)`: sort rows by timestamp ascending. -/
def sort_rows : List Row → List Row
  | [] => []
  | r :: rs => insert_row r (sort_rows rs)

/-- `Series.is_sorted()` on a list of row indices. -/
def nat_sorted : List Nat → Bool
  | [] => true
  | [_] => true
  | a :: b :: rest => a ≤ b && nat_sorted (b :: rest)

/-- The distinct calendar dates of the matched rows in order of first
occurrence (the grouping keys of `group_by(date)`); `seen` accumulates the
dates already emitted. -/
def distinct_dates (seen : List (Nat × Nat × Nat)) :
    List (Nat × Nat × Nat) → List (Nat × Nat × Nat)
  | [] => []
  | d :: rest =>
    if d ∈ seen then distinct_dates seen rest
    else d :: distinct_dates (d :: seen) rest

/-- `group_by(date).first()['index']` for one date group: the first stored
row index carrying that date. -/
def first_index_for (groups : List ((Nat × Nat × Nat) × Nat))
    (d : Nat × Nat × Nat) : Option Nat :=
  (groups.find? (fun p => p.1 == d)).map (fun p => p.2)

/-- `group_by(date).last()['index']` for one date group: the last stored
row index carrying that date. -/
def last_index_for (groups : List ((Nat × Nat × Nat) × Nat))
    (d : Nat × Nat × Nat) : Option Nat :=
  (groups.reverse.find? (fun p => p.1 == d)).map (fun p => p.2)

/-- Arithmetic on the `with_row_index` column: polars row indices are
unsigned 32-bit integers, so `- 1` and `+ 1` wrap modulo `2^32`
(in particular `0 - 1 = 4294967295`). -/
def u32_wrap (n : Int) : Nat :=
  (n % 4294967296).toNat

/-- `df[idx, :]`: polars' bounds-checked row gather.  Any index outside
`[0, len(df))` raises a gather-out-of-bounds error, modelled as `none`. -/
def gather_rows (df : List Row) (idx : List Nat) : Option (List Row) :=
  if idx.all (fun i => i < df.length) then
    some (idx.filterMap (fun i => df[i]?))
  else none

/-- Embedding of `filter_df_by_id_and_date` (api.py:165-260) on the
two-column schema of its docstring example.

Faithful pipeline: the input pre-checks (`len(df) > 0`, `id in
df[id_colname]`; the column-name checks hold structurally on the fixed
schema); `with_row_index` (u32 indices, modelled by `List.enum`); the
filter on id and on month/day of the timestamp; the `is_sorted` assert on
the matched indices; per-date-group first index minus one and last index
plus one in u32 arithmetic (`u32_wrap`); the concatenation
`idx.append(pre).append(post)`; the bounds-checked gather `df[idx, :]`;
and the final `.sort(date_colname)`.  `none` models any raised
assertion/compute error. -/
def filter_df_by_id_and_date (df : List Row) (id : Int)
    (target_month target_day : Nat) : Option (List Row) :=
  if df.length = 0 then none
  else if !(df.any (fun r => r.id == id)) then none
  else
    let indexed := df.enum
    let matched := indexed.filter (fun p =>
      p.2.id == id && p.2.timestamp.month == target_month &&
        p.2.timestamp.day == target_day)
    let target_date_idx : List ((Nat × Nat × Nat) × Nat) :=
      matched.map (fun p =>
        ((p.2.timestamp.year, p.2.timestamp.month, p.2.timestamp.day), p.1))
    if !(nat_sorted (target_date_idx.map (fun p => p.2))) then none
    else
      let dates := distinct_dates [] (target_date_idx.map (fun p => p.1))
      let pre_target_date_start_idx := dates.filterMap (fun d =>
        (first_index_for target_date_idx d).map
          (fun i => u32_wrap ((i : Int) - 1)))
      let post_target_date_end_idx := dates.filterMap (fun d =>
        (last_index_for target_date_idx d).map
          (fun i => u32_wrap ((i : Int) + 1)))
      let idx := (target_date_idx.map (fun p => p.2)) ++
        pre_target_date_start_idx ++ post_target_date_end_idx
      (gather_rows df idx).map sort_rows

/-- Embedding of the pydantic model `AnnualWeather` (api.py:30-56).  The
five `current_*` fields are copied from a `CurrentWeather` and carry NO
`Field` constraint in the source (the source comments at api.py:32-36
explain the omission); the constrained fields are validated by
`annual_weather_validate`. -/
structure AnnualWeather where
  current_temperature_celsius : Rat
  current_station : String
  current_city : String
  current_state : String
  current_error_message : String := ""
  distance_to_station_kilometers : Rat
  annual_timestamp : List DTime
  annual_temperature_celsius : List Rat
  annual_usaf_station_id : Int
  annual_wban_station_id : Int
  annual_station_name : String
  annual_station_state : String
  annual_station_call : String
  annual_station_latitude : Rat
  annual_station_longitude : Rat
  annual_station_elevation_meters : Rat
deriving DecidableEq, Repr

/-- The conjunction of the `Field` range/length constraints declared on
`AnnualWeather` (api.py:44-56).  Note there is no constraint on any of the
`current_*` fields, matching the source. -/
def annual_weather_validate (w : AnnualWeather) : Bool :=
  decide (0 ≤ w.distance_to_station_kilometers) &&
  decide (w.distance_to_station_kilometers ≤ 21000) &&
  decide (0 ≤ w.annual_usaf_station_id) &&
  decide (w.annual_usaf_station_id < 1000000) &&
  decide (0 ≤ w.annual_wban_station_id) &&
  decide (w.annual_wban_station_id < 100000) &&
  decide (w.annual_station_name.length ≤ 100) &&
  decide (w.annual_station_state.length = 2) &&
  decide (w.annual_station_call.length ≤ 4) &&
  decide (-90 ≤ w.annual_station_latitude) &&
  decide (w.annual_station_latitude ≤ 90) &&
  decide (-180 ≤ w.annual_station_longitude) &&
  decide (w.annual_station_longitude ≤ 180) &&
  decide (-440 ≤ w.annual_station_elevation_meters) &&
  decide (w.annual_station_elevation_meters ≤ 8850)

/-- Pydantic construction of `AnnualWeather` with every field explicitly
passed (as in `get_historical_and_current_temperatures`, api.py:539-555):
the declared constraints are checked and a violation raises
`ValidationError`, modelled as `none`. -/
def AnnualWeather.construct (w : AnnualWeather) : Option AnnualWeather :=
  if annual_weather_validate w then some w else none

/-- A fully populated, successful station-metadata payload (mirroring the
mock in test_request_current_weather_02). -/
def station_payload_full : StationPayload :=
  { forecast := some "https://api.weather.gov/gridpoints/KILX/000,000/forecast",
    error_type := none,
    city := some "Homer",
    state := some "IL",
    radarStation := some "KILX" }

/-- A station endpoint that always answers ok with the full payload. -/
def station_op_ok : Nat → Response StationPayload :=
  fun _ => { ok := true, body := station_payload_full }

/-- The payload `{type: "invalidPoint"}` of a rejected point lookup
(mirroring the mock in test_request_current_weather_04). -/
def station_payload_invalid_point : StationPayload :=
  { forecast := none, error_type := some "invalidPoint",
    city := none, state := none, radarStation := none }

/-- A station endpoint that always answers not-ok with the invalid-point
payload. -/
def station_op_invalid_point : Nat → Response StationPayload :=
  fun _ => { ok := false, body := station_payload_invalid_point }

/-- A not-ok station response whose JSON body carries no `type` key at all
(an empty problem document). -/
def station_op_missing_type : Nat → Response StationPayload :=
  fun _ => { ok := false,
             body := { forecast := none, error_type := none,
                       city := none, state := none, radarStation := none } }

/-- A forecast endpoint that always answers ok with first-period
temperature 23 degrees Fahrenheit (the repository's mock forecast). -/
def forecast_op_23 : Nat → Response ForecastPayload :=
  fun _ => { ok := true, body := { temperature := some 23 } }

/-- A forecast endpoint that always answers ok with an extreme first-period
temperature of 8000 degrees Fahrenheit. -/
def forecast_op_8000 : Nat → Response ForecastPayload :=
  fun _ => { ok := true, body := { temperature := some 8000 } }

/-- A forecast endpoint that always answers not-ok. -/
def forecast_op_not_ok : Nat → Response ForecastPayload :=
  fun _ => { ok := false, body := { temperature := some 23 } }

/-- An operation whose every attempt fails (never ok). -/
def unit_op_fail : Nat → Response Unit :=
  fun _ => { ok := false, body := () }

/-- An operation whose every attempt succeeds. -/
def unit_op_ok : Nat → Response Unit :=
  fun _ => { ok := true, body := () }

/-- A concrete stand-in distance function for instantiating the
station-scan theorems: squared Euclidean distance on the coordinate
plane. -/
def sq_dist (a b : Rat × Rat) : Rat :=
  (a.1 - b.1) * (a.1 - b.1) + (a.2 - b.2) * (a.2 - b.2)

/-- A small station catalog (latitudes/longitudes from the repository's
tests). -/
def stations_example : List (Rat × Rat) :=
  [(34, -116), (71, -156), (70, -160)]

/-- The docstring example of `filter_df_by_id_and_date` (api.py:180-198):
six rows of station 8 followed by six rows of station 5. -/
def df_docstring_example : List Row :=
  [⟨⟨2020, 1, 1, 0⟩, 8⟩, ⟨⟨2020, 1, 1, 12⟩, 8⟩, ⟨⟨2020, 1, 2, 0⟩, 8⟩,
   ⟨⟨2020, 1, 2, 12⟩, 8⟩, ⟨⟨2020, 1, 3, 0⟩, 8⟩, ⟨⟨2020, 1, 3, 12⟩, 8⟩,
   ⟨⟨2020, 1, 1, 0⟩, 5⟩, ⟨⟨2020, 1, 1, 12⟩, 5⟩, ⟨⟨2020, 1, 2, 0⟩, 5⟩,
   ⟨⟨2020, 1, 2, 12⟩, 5⟩, ⟨⟨2020, 1, 3, 0⟩, 5⟩, ⟨⟨2020, 1, 3, 12⟩, 5⟩]

/-- A series whose FIRST record matches the target date January 2. -/
def df_first_row_match : List Row :=
  [⟨⟨2020, 1, 2, 0⟩, 5⟩, ⟨⟨2020, 1, 3, 0⟩, 5⟩]

/-- A series whose LAST record matches the target date January 2. -/
def df_last_row_match : List Row :=
  [⟨⟨2020, 1, 1, 0⟩, 5⟩, ⟨⟨2020, 1, 2, 0⟩, 5⟩]

/-- An `AnnualWeather` whose bounded fields are all in range (values from
test_get_historical_and_current_temperatures_03) but whose
`current_temperature_celsius` holds the out-of-range `-9999` sentinel a
failed live fetch produces. -/
def annual_weather_sentinel : AnnualWeather :=
  { current_temperature_celsius := -9999,
    current_station := "",
    current_city := "",
    current_state := "",
    current_error_message := forecast_url_missing_message,
    distance_to_station_kilometers := 33,
    annual_timestamp := [⟨2019, 1, 1, 8⟩, ⟨2019, 1, 1, 16⟩],
    annual_temperature_celsius := [-3/2, 0],
    annual_usaf_station_id := 999999,
    annual_wban_station_id := 54808,
    annual_station_name := "CHAMPAIGN 9 SW",
    annual_station_state := "IL",
    annual_station_call := "XXX",
    annual_station_latitude := 40,
    annual_station_longitude := -88,
    annual_station_elevation_meters := 213 }

/-- The same aggregate with an in-range current temperature but a negative
station distance (outside `Field(ge=0, le=21000)`). -/
def annual_weather_bad_distance : AnnualWeather :=
  { annual_weather_sentinel with
    current_temperature_celsius := 0,
    distance_to_station_kilometers := -1 }

/-- If every attempt from `i` on fails, the loop runs to the last iteration
and returns the final response with the final loop index `n - 1`. -/
theorem retry_go_all_fail {β : Type} (f : Nat → Response β) (n : Nat) :
    ∀ fuel i, i + fuel = n → 1 ≤ fuel →
      (∀ j, i ≤ j → j < n → (f j).ok = false) →
      retry_go f n i fuel = some (f (n - 1), n - 1) := by
  intro fuel
  induction fuel with
  | zero => intro i _ h1 _; omega
  | succ k ih =>
    intro i hin _ hfail
    have hok : (f i).ok = false := hfail i le_rfl (by omega)
    by_cases hi : i < n - 1
    · have hrec := ih (i + 1) (by omega) (by omega)
        (fun j h1 h2 => hfail j (by omega) h2)
      simp [retry_go, hok, hi, hrec]
    · have hieq : i = n - 1 := by omega
      simp [retry_go, hok, hi, hieq]

/-- If attempt `k` is the first success at or after `i`, the loop returns
`(f k, k)` immediately. -/
theorem retry_go_first_ok {β : Type} (f : Nat → Response β) (n : Nat) :
    ∀ fuel i k, i + fuel = n → i ≤ k → k < n → (f k).ok = true →
      (∀ j, i ≤ j → j < k → (f j).ok = false) →
      retry_go f n i fuel = some (f k, k) := by
  intro fuel
  induction fuel with
  | zero => intro i k _ _ _ _ _; omega
  | succ m ih =>
    intro i k hin hik hkn hok hfail
    by_cases hieq : i = k
    · subst hieq
      simp [retry_go, hok]
    · have hlt : i < k := lt_of_le_of_ne hik hieq
      have hoki : (f i).ok = false := hfail i le_rfl hlt
      have hi : i < n - 1 := by omega
      have hrec := ih (i + 1) k (by omega) (by omega) hkn hok
        (fun j h1 h2 => hfail j (by omega) h2)
      simp [retry_go, hoki, hi, hrec]

/-- C4 (amended): for max_attempts >= 1, `retry_request` returns at the
first ok response (with its zero-based attempt index); if every attempt
fails it runs exactly `max_attempts` attempts and returns the final failed
response together with the zero-based index of the final attempt, which is
`max_attempts - 1` — one less than the count of attempts made. -/
theorem retry_request_first_ok_or_final (f : Nat → Response Unit) (n : Nat)
    (hn : 1 ≤ n) :
    ((∀ j, j < n → (f j).ok = false) →
      retry_request (n : Int) f = some (f (n - 1), n - 1)) ∧
    (∀ k, k < n → (f k).ok = true → (∀ j, j < k → (f j).ok = false) →
      retry_request (n : Int) f = some (f k, k)) := by
  have hclamp : (if (n : Int) < 1 then 0 else (n : Int).toNat) = n := by
    have : ¬ ((n : Int) < 1) := by exact_mod_cast not_lt.mpr hn
    simp [this]
  constructor
  · intro hfail
    unfold retry_request
    rw [hclamp]
    exact retry_go_all_fail f n n 0 (by omega) hn (fun j _ h2 => hfail j h2)
  · intro k hk hok hfail
    unfold retry_request
    rw [hclamp]
    exact retry_go_first_ok f n n 0 k (by omega) (Nat.zero_le k) hk hok
      (fun j _ h2 => hfail j h2)

/-- C4 witness: a run whose first attempt succeeds returns that response
with attempt index 0. -/
theorem retry_request_first_ok_or_final_witness :
    retry_request ((1 : Nat) : Int) unit_op_ok = some (unit_op_ok 0, 0) :=
  (retry_request_first_ok_or_final unit_op_ok 1 (by decide)).2 0 (by decide)
    rfl (fun j h => absurd h (Nat.not_lt_zero j))

/-- C4 counterexample: on an all-failing operation with max_attempts = 3
the source performs 3 attempts but returns counter value 2 (the loop
index), not the count 3 of attempts actually made. -/
theorem retry_request_returns_index_not_count :
    retry_request 3 unit_op_fail = some (unit_op_fail 2, 2) ∧ (2 : Nat) ≠ 3 :=
  ⟨rfl, by decide⟩

/-- C8 (amended): for max_attempts below 1 the clamped loop bound is 0, the
loop body never runs (the operation is never called — the result is the
same for every operation), and the function falls off the end, returning
Python `None` rather than any (response, attempts) pair. -/
theorem retry_request_clamped_none {β : Type} (f : Nat → Response β)
    (retry_counter : Int) (hc : retry_counter < 1) :
    retry_request retry_counter f = none := by
  unfold retry_request
  simp [hc, retry_go]

/-- C8 witness: the amended behaviour at max_attempts = 0. -/
theorem retry_request_clamped_none_witness :
    retry_request 0 unit_op_fail = none :=
  retry_request_clamped_none unit_op_fail 0 (by decide)

/-- C8 counterexample: at max_attempts = -1 the result is `None`; there is
no "failure-shaped (response, attempts) value" as the claim states. -/
theorem retry_request_below_one_no_pair :
    retry_request (-1) unit_op_ok = none ∧
    ∀ p : Response Unit × Nat, retry_request (-1) unit_op_ok ≠ some p :=
  ⟨rfl, fun _ h => Option.noConfusion h⟩

/-- C7: the Fahrenheit-to-Celsius conversion maps 32 to 0, 212 to 100 and
-40 to -40, and computes `5/9 * (F - 32) = (F - 32) * 5/9` everywhere. -/
theorem convert_fahrenheit_to_celsius_fixed_points :
    convert_fahrenheit_to_celsius 32 = 0 ∧
    convert_fahrenheit_to_celsius 212 = 100 ∧
    convert_fahrenheit_to_celsius (-40) = -40 ∧
    ∀ f : Rat, convert_fahrenheit_to_celsius f = (f - 32) * (5 / 9) := by
  refine ⟨?_, ?_, ?_, fun f => ?_⟩ <;>
    · unfold convert_fahrenheit_to_celsius
      ring

/-- Sanity check of the `filter_df_by_id_and_date` embedding: on the
source docstring's 12-row example with id 5 and target January 2 it
returns exactly the four rows of the docstring's expected output. -/
theorem filter_df_by_id_and_date_docstring_example :
    filter_df_by_id_and_date df_docstring_example 5 1 2 =
      some [⟨⟨2020, 1, 1, 12⟩, 5⟩, ⟨⟨2020, 1, 2, 0⟩, 5⟩,
            ⟨⟨2020, 1, 2, 12⟩, 5⟩, ⟨⟨2020, 1, 3, 0⟩, 5⟩] := rfl

/-- C2: a match at series index 0 makes the preceding-bracket index wrap in
unsigned 32-bit arithmetic to 4294967295, and a match at the last series
index makes the following-bracket index equal `len(df)`; in both cases the
row gather `df[idx, :]` is out of bounds and the call errors instead of
omitting the bracket. -/
theorem filter_df_by_id_and_date_boundary_errors :
    filter_df_by_id_and_date df_first_row_match 5 1 2 = none ∧
    filter_df_by_id_and_date df_last_row_match 5 1 2 = none :=
  ⟨rfl, rfl⟩

/-- C1 (amended): whenever the final station-lookup response is not ok AND
its payload carries a `type` field, `request_current_weather` returns a
CurrentWeather with valid_response = false whose error message is the
invalid-input-coordinates message when the type contains "invalidpoint"
(case-insensitively) and the invalid-weather-api-response message
otherwise.  The conclusion holds for EVERY forecast operation, i.e. the
result does not depend on the forecast endpoint: it is never consulted. -/
theorem request_current_weather_station_not_ok (station_op : Nat → Response StationPayload)
    (r : Response StationPayload) (a : Nat) (t : String)
    (hr : retry_request 3 station_op = some (r, a))
    (hok : r.ok = false)
    (ht : r.body.error_type = some t) :
    ∀ forecast_op, request_current_weather station_op forecast_op =
      some { valid_response := false,
             error_message :=
               if str_contains t.toLower "invalidpoint" then
                 invalid_input_coordinates_message
               else invalid_weather_api_response_message } := by
  intro forecast_op
  unfold request_current_weather
  dsimp only
  rw [hr]
  simp [hok, ht]
  split <;> rfl

/-- C1 witness: a persistent not-ok station response with payload type
"invalidPoint" yields the invalid-input-coordinates message. -/
theorem request_current_weather_station_not_ok_witness :
    request_current_weather station_op_invalid_point forecast_op_23 =
      some { valid_response := false,
             error_message :=
               if str_contains ("invalidPoint".toLower) "invalidpoint" then
                 invalid_input_coordinates_message
               else invalid_weather_api_response_message } :=
  request_current_weather_station_not_ok station_op_invalid_point
    { ok := false, body := station_payload_invalid_point } 2 "invalidPoint"
    rfl rfl rfl forecast_op_23

/-- C1 counterexample: a final not-ok station response whose payload lacks
the `type` key makes the unguarded `station_response.json()['type']` raise
(modelled as `none`): the function does NOT return a CurrentWeather for
this not-ok response, contradicting the claim's "never raises". -/
theorem request_current_weather_station_not_ok_raises :
    request_current_weather station_op_missing_type forecast_op_23 = none := rfl

/-- C6: when the station stage succeeds with a forecast URL but the final
forecast response is not ok, the result is valid_response = false with
every other field at its default — in particular an EMPTY error message,
unlike the five named error categories. -/
theorem request_current_weather_forecast_not_ok
    (station_op : Nat → Response StationPayload)
    (forecast_op : Nat → Response ForecastPayload)
    (rs : Response StationPayload) (a : Nat) (u : String)
    (rf : Response ForecastPayload) (b : Nat)
    (hrs : retry_request 3 station_op = some (rs, a))
    (hok : rs.ok = true)
    (hurl : rs.body.forecast = some u)
    (hrf : retry_request 3 forecast_op = some (rf, b))
    (hfok : rf.ok = false) :
    request_current_weather station_op forecast_op =
      some { valid_response := false, temperature_celsius := -9999,
             radar_station := "", coordinates_city := "",
             coordinates_state := "", error_message := "" } := by
  unfold request_current_weather
  dsimp only
  rw [hrs]
  simp [hok, hurl, hrf, hfok]

/-- C6 witness: a successful station stage followed by a persistently
failing forecast stage. -/
theorem request_current_weather_forecast_not_ok_witness :
    request_current_weather station_op_ok forecast_op_not_ok =
      some { valid_response := false, temperature_celsius := -9999,
             radar_station := "", coordinates_city := "",
             coordinates_state := "", error_message := "" } :=
  request_current_weather_forecast_not_ok station_op_ok forecast_op_not_ok
    { ok := true, body := station_payload_full } 0
    "https://api.weather.gov/gridpoints/KILX/000,000/forecast"
    { ok := false, body := { temperature := some 23 } } 2
    rfl rfl rfl rfl rfl

/-- C10: a fully successful two-stage exchange whose forecast payload
carries 8000 degrees Fahrenheit yields a valid CurrentWeather whose
temperature (converted to Celsius) lies outside the declared
`Field(ge=-150, le=150)` bound: the post-construction assignment
`current_weather.temperature_celsius = ...` is not re-validated by
pydantic. -/
theorem request_current_weather_extreme_temperature :
    ∃ cw : CurrentWeather,
      request_current_weather station_op_ok forecast_op_8000 = some cw ∧
      cw.valid_response = true ∧
      ¬ temperature_celsius_in_declared_range cw.temperature_celsius := by
  refine ⟨{ valid_response := true,
            temperature_celsius := convert_fahrenheit_to_celsius 8000,
            radar_station := "KILX", coordinates_city := "Homer",
            coordinates_state := "IL" }, rfl, rfl, ?_⟩
  unfold temperature_celsius_in_declared_range convert_fahrenheit_to_celsius
  norm_num

/-- C5 (amended): every numeric field that carries a declared bound
(distance, the two station ids, latitude, longitude, elevation) is
range-validated at construction and an out-of-range value fails with
ValidationError (`none`); but the CurrentWeather-derived
`current_temperature_celsius` carries no declared bound in the source, is
not validated at all, and its value never affects whether construction
succeeds. -/
theorem annual_weather_validation_scope :
    (∀ w : AnnualWeather,
      (w.distance_to_station_kilometers < 0 ∨
       21000 < w.distance_to_station_kilometers ∨
       w.annual_usaf_station_id < 0 ∨ 1000000 ≤ w.annual_usaf_station_id ∨
       w.annual_wban_station_id < 0 ∨ 100000 ≤ w.annual_wban_station_id ∨
       w.annual_station_latitude < -90 ∨ 90 < w.annual_station_latitude ∨
       w.annual_station_longitude < -180 ∨ 180 < w.annual_station_longitude ∨
       w.annual_station_elevation_meters < -440 ∨
       8850 < w.annual_station_elevation_meters) →
      AnnualWeather.construct w = none) ∧
    (∀ (w : AnnualWeather) (t : Rat),
      (AnnualWeather.construct
        { w with current_temperature_celsius := t }).isSome =
      (AnnualWeather.construct w).isSome) := by
  constructor
  · intro w h
    rcases h with h | h | h | h | h | h | h | h | h | h | h | h <;>
      first
        | simp [AnnualWeather.construct, annual_weather_validate, not_le.mpr h]
        | simp [AnnualWeather.construct, annual_weather_validate, not_lt.mpr h]
  · intro w t
    have hval : annual_weather_validate
        { w with current_temperature_celsius := t } =
        annual_weather_validate w := rfl
    unfold AnnualWeather.construct
    rw [hval]
    cases annual_weather_validate w <;> simp

/-- C5 witness: a negative station distance fails construction, while
changing only the unvalidated current temperature leaves the construction
outcome untouched. -/
theorem annual_weather_validation_scope_witness :
    AnnualWeather.construct annual_weather_bad_distance = none ∧
    (AnnualWeather.construct
      { annual_weather_sentinel with
        current_temperature_celsius := -9999 }).isSome =
    (AnnualWeather.construct annual_weather_sentinel).isSome :=
  ⟨annual_weather_validation_scope.1 annual_weather_bad_distance
    (Or.inl (by norm_num [annual_weather_bad_distance,
      annual_weather_sentinel])),
   annual_weather_validation_scope.2 annual_weather_sentinel (-9999)⟩

/-- C5 counterexample: an `AnnualWeather` whose current temperature is the
out-of-range sentinel -9999 (far below the [-150, 150] range the data
model declares for current temperatures) constructs successfully — the
claim that any out-of-bound numeric field, including
current_temperature_celsius, fails construction is false on the code. -/
theorem annual_weather_sentinel_constructs :
    AnnualWeather.construct annual_weather_sentinel =
      some annual_weather_sentinel ∧
    annual_weather_sentinel.current_temperature_celsius < -150 := by
  constructor
  · rfl
  · norm_num [annual_weather_sentinel]

/-- Invariant of the strict-less minimum scan: starting at position `k`
with current best `(mi, m)` taken from the already-scanned prefix (first
index attaining the prefix minimum), the loop over the remaining suffix
`l` of the distance list `dists` returns the first index attaining the
global minimum together with that minimum. -/
theorem closest_loop_spec (dists : List Rat) :
    ∀ (l : List Rat) (k mi : Nat) (m : Rat),
      (∀ j : Nat, l[j]? = dists[k + j]?) →
      dists[mi]? = some m →
      mi < k →
      (∀ (j : Nat) (x : Rat), dists[j]? = some x → j < k → m ≤ x) →
      (∀ (j : Nat) (x : Rat), dists[j]? = some x → j < mi → m < x) →
      ∃ (i : Nat) (d : Rat),
        closest_loop (List.enumFrom k l) ((mi : Int), some m) =
          ((i : Int), some d) ∧
        dists[i]? = some d ∧
        (∀ (j : Nat) (x : Rat), dists[j]? = some x → d ≤ x) ∧
        (∀ (j : Nat) (x : Rat), dists[j]? = some x → j < i → d < x) := by
  intro l
  induction l with
  | nil =>
    intro k mi m hsuf hm hmi hmin htie
    refine ⟨mi, m, rfl, hm, ?_, ?_⟩
    · intro j x hj
      rcases Nat.lt_or_ge j k with hlt | hge
      · exact hmin j x hj hlt
      · exfalso
        have h0 : dists[j]? = ([] : List Rat)[j - k]? := by
          rw [hsuf (j - k)]
          congr 1
          omega
        rw [hj, List.getElem?_nil] at h0
        exact Option.noConfusion h0
    · intro j x hj hji
      exact htie j x hj hji
  | cons dist rest ih =>
    intro k mi m hsuf hm hmi hmin htie
    have hk : dists[k]? = some dist := by
      have h0 := (hsuf 0).symm
      simpa using h0
    have hsuf' : ∀ j : Nat, rest[j]? = dists[k + 1 + j]? := by
      intro j
      have h1 := hsuf (j + 1)
      rw [List.getElem?_cons_succ] at h1
      rw [h1]
      congr 1
      omega
    rw [List.enumFrom_cons]
    by_cases hlt : dist < m
    · have hmin' : ∀ (j : Nat) (x : Rat), dists[j]? = some x → j < k + 1 → dist ≤ x := by
        intro j x hj hjk
        rcases Nat.lt_or_ge j k with hc | hc
        · exact le_of_lt (lt_of_lt_of_le hlt (hmin j x hj hc))
        · have hjeq : j = k := by omega
          subst hjeq
          rw [hj] at hk
          exact le_of_eq (Option.some.inj hk).symm
      have htie' : ∀ (j : Nat) (x : Rat), dists[j]? = some x → j < k → dist < x := by
        intro j x hj hjk
        exact lt_of_lt_of_le hlt (hmin j x hj hjk)
      have hrec := ih (k + 1) k dist hsuf' hk (by omega) hmin' htie'
      simpa [closest_loop, lt_min_distance, hlt] using hrec
    · have hge : m ≤ dist := not_lt.mp hlt
      have hmin' : ∀ (j : Nat) (x : Rat), dists[j]? = some x → j < k + 1 → m ≤ x := by
        intro j x hj hjk
        rcases Nat.lt_or_ge j k with hc | hc
        · exact hmin j x hj hc
        · have hjeq : j = k := by omega
          subst hjeq
          rw [hj] at hk
          rw [Option.some.inj hk]
          exact hge
      have hrec := ih (k + 1) mi m hsuf' hm (by omega) hmin' htie
      simpa [closest_loop, lt_min_distance, hlt] using hrec

/-- The scan of `identify_closest_coordinates` over a non-empty catalog
returns a genuine position of the distance list (never the sentinels),
holding the first-attained minimum distance. -/
theorem identify_closest_coordinates_spec
    (gd_distance : Rat × Rat → Rat × Rat → Rat)
    (input_coordinates : Rat × Rat) (coordinates_df : List (Rat × Rat))
    (h : coordinates_df ≠ []) :
    ∃ (i : Nat) (d : Rat),
      identify_closest_coordinates gd_distance input_coordinates
        coordinates_df = ((i : Int), some d) ∧
      (coordinates_df.map (gd_distance input_coordinates))[i]? = some d ∧
      (∀ (j : Nat) (x : Rat),
        (coordinates_df.map (gd_distance input_coordinates))[j]? = some x →
        d ≤ x) ∧
      (∀ (j : Nat) (x : Rat),
        (coordinates_df.map (gd_distance input_coordinates))[j]? = some x →
        j < i → d < x) := by
  rcases coordinates_df with _ | ⟨s, t⟩
  · exact absurd rfl h
  · have step : identify_closest_coordinates gd_distance input_coordinates
        (s :: t) =
        closest_loop
          (List.enumFrom 1 (t.map (gd_distance input_coordinates)))
          (((0 : Nat) : Int), some (gd_distance input_coordinates s)) := rfl
    rw [step]
    refine closest_loop_spec ((s :: t).map (gd_distance input_coordinates))
      (t.map (gd_distance input_coordinates)) 1 0
      (gd_distance input_coordinates s) ?_ (by simp) (by omega) ?_ ?_
    · intro j
      rw [show 1 + j = j + 1 from Nat.add_comm 1 j]
      exact (List.getElem?_cons_succ).symm
    · intro j x hj hj1
      have hjeq : j = 0 := by omega
      subst hjeq
      simp only [List.map_cons, List.getElem?_cons_zero] at hj
      exact le_of_eq (Option.some.inj hj)
    · intro j x _ hj0
      exact absurd hj0 (Nat.not_lt_zero j)

/-- C9: on a non-empty catalog of n stations the returned index lies in
[0, n) — the sentinels (-1, infinity) never escape — and the returned
distance is exactly the distance to the station at the returned index. -/
theorem identify_closest_coordinates_index_valid
    (gd_distance : Rat × Rat → Rat × Rat → Rat)
    (input_coordinates : Rat × Rat) (coordinates_df : List (Rat × Rat))
    (h : coordinates_df ≠ []) :
    0 ≤ (identify_closest_coordinates gd_distance input_coordinates
        coordinates_df).1 ∧
    (identify_closest_coordinates gd_distance input_coordinates
        coordinates_df).1.toNat < coordinates_df.length ∧
    (identify_closest_coordinates gd_distance input_coordinates
        coordinates_df).2 =
      (coordinates_df.map (gd_distance input_coordinates))[
        (identify_closest_coordinates gd_distance input_coordinates
          coordinates_df).1.toNat]? := by
  obtain ⟨i, d, heq, hget, hmin, htie⟩ :=
    identify_closest_coordinates_spec gd_distance input_coordinates
      coordinates_df h
  rw [heq]
  refine ⟨Int.natCast_nonneg i, ?_, ?_⟩
  · obtain ⟨hlen, _⟩ := List.getElem?_eq_some.mp hget
    simpa [Int.toNat_natCast] using hlen
  · simp only [Int.toNat_natCast]
    exact hget.symm

/-- C3: on a non-empty catalog the returned distance is a lower bound of
the distances to every station in the catalog, and every station scanned
before the returned index is strictly farther (so on exact ties the lowest
index wins). -/
theorem identify_closest_coordinates_min
    (gd_distance : Rat × Rat → Rat × Rat → Rat)
    (input_coordinates : Rat × Rat) (coordinates_df : List (Rat × Rat))
    (h : coordinates_df ≠ []) :
    ∃ d : Rat,
      (identify_closest_coordinates gd_distance input_coordinates
        coordinates_df).2 = some d ∧
      (∀ station ∈ coordinates_df,
        d ≤ gd_distance input_coordinates station) ∧
      (∀ (j : Nat) (x : Rat),
        (coordinates_df.map (gd_distance input_coordinates))[j]? = some x →
        j < (identify_closest_coordinates gd_distance input_coordinates
          coordinates_df).1.toNat →
        d < x) := by
  obtain ⟨i, d, heq, hget, hmin, htie⟩ :=
    identify_closest_coordinates_spec gd_distance input_coordinates
      coordinates_df h
  refine ⟨d, by rw [heq], ?_, ?_⟩
  · intro station hs
    have hmem : gd_distance input_coordinates station ∈
        coordinates_df.map (gd_distance input_coordinates) :=
      List.mem_map_of_mem _ hs
    obtain ⟨n, hn⟩ := List.mem_iff_get?.mp hmem
    rw [List.get?_eq_getElem?] at hn
    exact hmin n _ hn
  · intro j x hj hji
    rw [heq] at hji
    simp only [Int.toNat_natCast] at hji
    exact htie j x hj hji

/-- C9 witness: the spec applied to a concrete three-station catalog. -/
theorem identify_closest_coordinates_index_valid_witness :
    0 ≤ (identify_closest_coordinates sq_dist (70, -160)
        stations_example).1 ∧
    (identify_closest_coordinates sq_dist (70, -160)
        stations_example).1.toNat < stations_example.length ∧
    (identify_closest_coordinates sq_dist (70, -160) stations_example).2 =
      (stations_example.map (sq_dist (70, -160)))[
        (identify_closest_coordinates sq_dist (70, -160)
          stations_example).1.toNat]? :=
  identify_closest_coordinates_index_valid sq_dist (70, -160)
    stations_example (by simp [stations_example])

/-- C3 witness: the minimality statement applied to a concrete
three-station catalog. -/
theorem identify_closest_coordinates_min_witness :
    ∃ d : Rat,
      (identify_closest_coordinates sq_dist (70, -160)
        stations_example).2 = some d ∧
      (∀ station ∈ stations_example, d ≤ sq_dist (70, -160) station) ∧
      (∀ (j : Nat) (x : Rat),
        (stations_example.map (sq_dist (70, -160)))[j]? = some x →
        j < (identify_closest_coordinates sq_dist (70, -160)
          stations_example).1.toNat →
        d < x) :=
  identify_closest_coordinates_min sq_dist (70, -160) stations_example
    (by simp [stations_example])
